import Mathlib

/-!
# Verification of the UIDAI multi-technique consensus anomaly detector

Shallow embedding of the anomaly-detection core of the repository
(`scripts/STEP9_anomaly_detection_framework.py` and
`scripts/PHASE3_STEP4_anomaly_detection.py`): the feature builder, the
three detectors (density / statistical z-score / temporal spike), the
consensus aggregator and the characterizer.

Numeric columns in the scripts are pandas float columns.  We model a pandas
float by the type `PF`: a finite rational, NaN, +inf or -inf, with the
IEEE-754 behaviour pandas/numpy exhibit on these operations (`x/0` is
±inf for `x ≠ 0` and NaN for `x = 0`; any comparison against NaN is
false).  Absolute z-scores are represented by their *squares* so that the
computation stays inside `ℚ` (`|z| > t ↔ z² > t²` and the ordering of
absolute deviations is exactly the ordering of their squares); this is
recorded at each definition it affects.
-/

/-- A pandas/numpy float64 cell: a finite rational, NaN, or a signed
infinity. -/
inductive PF where
  | fin (q : ℚ)
  | nan
  | inf
  | neginf
deriving DecidableEq, Repr

namespace PF

/-- Whether the value is a finite number. -/
def isFinite : PF → Bool
  | fin _ => true
  | _ => false

/-- Whether the value is NaN. -/
def isNan : PF → Bool
  | nan => true
  | _ => false

end PF

/-- IEEE-style division as performed by pandas on float columns:
`x / 0` is NaN when `x = 0`, and ±inf otherwise; NaN propagates. -/
def pdiv : PF → PF → PF
  | PF.nan, _ => PF.nan
  | _, PF.nan => PF.nan
  | PF.fin a, PF.fin b =>
      if b = 0 then
        (if a = 0 then PF.nan else if 0 < a then PF.inf else PF.neginf)
      else PF.fin (a / b)
  | PF.fin _, PF.inf => PF.fin 0
  | PF.fin _, PF.neginf => PF.fin 0
  | PF.inf, PF.fin b => if 0 ≤ b then PF.inf else PF.neginf
  | PF.neginf, PF.fin b => if 0 ≤ b then PF.neginf else PF.inf
  | PF.inf, PF.inf => PF.nan
  | PF.inf, PF.neginf => PF.nan
  | PF.neginf, PF.inf => PF.nan
  | PF.neginf, PF.neginf => PF.nan

/-- IEEE-style multiplication on pandas floats; `0 * ±inf = NaN`,
NaN propagates. -/
def pmul : PF → PF → PF
  | PF.nan, _ => PF.nan
  | _, PF.nan => PF.nan
  | PF.fin a, PF.fin b => PF.fin (a * b)
  | PF.fin a, PF.inf =>
      if a = 0 then PF.nan else if 0 < a then PF.inf else PF.neginf
  | PF.fin a, PF.neginf =>
      if a = 0 then PF.nan else if 0 < a then PF.neginf else PF.inf
  | PF.inf, PF.fin b =>
      if b = 0 then PF.nan else if 0 < b then PF.inf else PF.neginf
  | PF.neginf, PF.fin b =>
      if b = 0 then PF.nan else if 0 < b then PF.neginf else PF.inf
  | PF.inf, PF.inf => PF.inf
  | PF.inf, PF.neginf => PF.neginf
  | PF.neginf, PF.inf => PF.neginf
  | PF.neginf, PF.neginf => PF.inf

/-- `np.abs` on a pandas float: `abs NaN = NaN`, `abs (±inf) = +inf`. -/
def pabs : PF → PF
  | PF.fin a => PF.fin |a|
  | PF.nan => PF.nan
  | _ => PF.inf

/-- Strict `>` as evaluated by pandas/numpy on floats: any comparison
involving NaN is false; +inf is greater than every finite value. -/
def pfgt : PF → PF → Bool
  | PF.fin a, PF.fin b => decide (b < a)
  | PF.fin _, PF.neginf => true
  | PF.inf, PF.fin _ => true
  | PF.inf, PF.neginf => true
  | _, _ => false

/-- Strict `<` on pandas floats (NaN incomparable). -/
def pflt (a b : PF) : Bool := pfgt b a

/-- The scripts' `.replace([np.inf, -np.inf], 0)`: both infinities are
replaced by `0`; NaN is left untouched (pandas `replace` does not match
NaN here). -/
def replaceInfWithZero : PF → PF
  | PF.inf => PF.fin 0
  | PF.neginf => PF.fin 0
  | x => x

/-- Maximum of two pandas floats with numpy's NaN propagation (`np.max`
over a float array containing NaN is NaN). -/
def pfmax : PF → PF → PF
  | PF.nan, _ => PF.nan
  | _, PF.nan => PF.nan
  | PF.inf, _ => PF.inf
  | _, PF.inf => PF.inf
  | PF.fin a, PF.fin b => PF.fin (max a b)
  | PF.neginf, b => b
  | a, PF.neginf => a

/-- Sum of a list of rationals. -/
def listSum (xs : List ℚ) : ℚ := xs.foldr (· + ·) 0

/-- Arithmetic mean of a list of rationals (0 on the empty list, which
never occurs in the pipeline). -/
def listMean (xs : List ℚ) : ℚ := listSum xs / (xs.length : ℚ)

/-- Population variance (ddof = 0), as used by `scipy.stats.zscore`. -/
def listVar (xs : List ℚ) : ℚ :=
  listSum (xs.map (fun x => (x - listMean xs) ^ 2)) / (xs.length : ℚ)

/-- The finite entries of a pandas float column. -/
def finiteVals (col : List PF) : List ℚ :=
  col.filterMap (fun x => match x with | PF.fin q => some q | _ => none)

/-- Whether every entry of a column is finite. -/
def allFinite (col : List PF) : Bool := col.all PF.isFinite

/-- One row of the per-state aggregation the scripts build with
`groupby('state').agg(...)` followed by the outer merges and `fillna(0)`:
every count is a non-negative integer, with absent categories already
defaulted to 0 (`STEP9_anomaly_detection_framework.py`, lines 70-96). -/
structure RegionAgg where
  state : String
  age_0_5 : ℕ
  age_5_17 : ℕ
  age_18_greater : ℕ
  total_enrolments : ℕ
  total_bio_updates : ℕ
  total_demo_updates : ℕ
deriving DecidableEq, Repr

/-- A derived rate feature of the Feature Builder:
`(num / den * 100).replace([np.inf, -np.inf], 0)`
(`STEP9_anomaly_detection_framework.py`, lines 99-103).  Note the
replacement handles only the infinities: `0 / 0` is NaN and stays NaN. -/
def rateFeature (num den : ℕ) : PF :=
  replaceInfWithZero (pmul (pdiv (PF.fin (num : ℚ)) (PF.fin (den : ℚ))) (PF.fin 100))

/-- The Feature Vector of one region as built in
`STEP9_anomaly_detection_framework.py`, lines 99-103. -/
structure FeatureRow where
  state : String
  total_enrolments : PF
  bio_update_rate : PF
  demo_update_rate : PF
  child_enrol_pct : PF
  youth_enrol_pct : PF
  adult_enrol_pct : PF
deriving DecidableEq, Repr

/-- The Feature Builder: derived update-rate and age-share features of one
region (`STEP9_anomaly_detection_framework.py`, lines 99-103). -/
def buildFeatureRow (r : RegionAgg) : FeatureRow :=
  { state := r.state
    total_enrolments := PF.fin (r.total_enrolments : ℚ)
    bio_update_rate := rateFeature r.total_bio_updates r.total_enrolments
    demo_update_rate := rateFeature r.total_demo_updates r.total_enrolments
    child_enrol_pct := rateFeature r.age_0_5 r.total_enrolments
    youth_enrol_pct := rateFeature r.age_5_17 r.total_enrolments
    adult_enrol_pct := rateFeature r.age_18_greater r.total_enrolments }

/-- The Feature Builder applied to the whole per-state table. -/
def buildFeatures (rs : List RegionAgg) : List FeatureRow :=
  rs.map buildFeatureRow

/-! ## Statistical Outlier Detector (z-score method)

`STEP9_anomaly_detection_framework.py`, lines 163-176:
`np.abs(stats.zscore(col))` per tracked column, flagged when any exceeds
the 3-sigma threshold.  `scipy.stats.zscore` uses the population standard
deviation (ddof = 0) and propagates NaN through the column mean; a
zero-variance column yields `0 / 0 = NaN` for every entry.  To stay inside
`ℚ` we carry the *square* of the absolute z-score: for finite values
`|z| > t ↔ z² > t²`, and the ordering of absolute deviations equals the
ordering of their squares, so thresholding and ranking are unchanged. -/

/-- The square of the absolute z-score `|x - μ| / σ` of an entry against
its column, with scipy's NaN behaviour: a non-finite entry anywhere in the
column makes every z-score NaN, and a zero-variance column gives
`0 / 0 = NaN` for each of its own entries. -/
def absZscoreSq (col : List PF) (x : PF) : PF :=
  if allFinite col then
    match x with
    | PF.fin q =>
        if listVar (finiteVals col) = 0 then
          (if q = listMean (finiteVals col) then PF.nan else PF.inf)
        else PF.fin ((q - listMean (finiteVals col)) ^ 2 / listVar (finiteVals col))
    | _ => PF.nan
  else PF.nan

/-- Squared deviation of a region's bio update rate against the
population (`features_df['bio_rate_zscore']`, squared representation). -/
def bioDevSq (pop : List FeatureRow) (r : FeatureRow) : PF :=
  absZscoreSq (pop.map FeatureRow.bio_update_rate) r.bio_update_rate

/-- Squared deviation of the demo update rate
(`features_df['demo_rate_zscore']`, squared representation). -/
def demoDevSq (pop : List FeatureRow) (r : FeatureRow) : PF :=
  absZscoreSq (pop.map FeatureRow.demo_update_rate) r.demo_update_rate

/-- Squared deviation of the child enrolment percentage
(`features_df['child_pct_zscore']`, squared representation). -/
def childDevSq (pop : List FeatureRow) (r : FeatureRow) : PF :=
  absZscoreSq (pop.map FeatureRow.child_enrol_pct) r.child_enrol_pct

/-- Squared deviation of the total enrolments
(`features_df['enrol_zscore']`, squared representation). -/
def enrolDevSq (pop : List FeatureRow) (r : FeatureRow) : PF :=
  absZscoreSq (pop.map FeatureRow.total_enrolments) r.total_enrolments

/-- The z-score threshold 3, squared to match the squared-deviation
representation (`threshold = 3`, line 163). -/
def zscoreThresholdSq : PF := PF.fin 9

/-- The Statistical Outlier Detector's flag: any tracked metric beyond 3
sigma (`features_df['zscore_anomaly']`, lines 171-176). -/
def zscoreFlag (pop : List FeatureRow) (r : FeatureRow) : Bool :=
  pfgt (bioDevSq pop r) zscoreThresholdSq ||
  pfgt (demoDevSq pop r) zscoreThresholdSq ||
  pfgt (childDevSq pop r) zscoreThresholdSq ||
  pfgt (enrolDevSq pop r) zscoreThresholdSq

/-- The key the script actually ranks regions by when displaying z-score
results: `features_df.nlargest(20, 'bio_rate_zscore')` (line 376) orders
by the bio-update-rate deviation alone. -/
def zscoreRankKey (pop : List FeatureRow) (r : FeatureRow) : PF :=
  bioDevSq pop r

/-- Written from the spec's words, for comparison with `zscoreRankKey`:
"the maximum over tracked features of the region's absolute standardized
deviation ... used for ranking" (spec §4.2).  Squared representation, so
the induced ordering is that of the absolute deviations themselves. -/
def specMaxDeviation (pop : List FeatureRow) (r : FeatureRow) : PF :=
  pfmax (pfmax (bioDevSq pop r) (demoDevSq pop r))
        (pfmax (childDevSq pop r) (enrolDevSq pop r))

/-- `pandas.nlargest` comparison on float keys: finite values descending,
+inf first, NaN last. -/
def pfRankGE : PF → PF → Bool
  | PF.nan, PF.nan => true
  | PF.nan, _ => false
  | _, PF.nan => true
  | PF.inf, _ => true
  | _, PF.inf => false
  | PF.fin a, PF.fin b => decide (b ≤ a)
  | PF.fin _, PF.neginf => true
  | PF.neginf, PF.fin _ => false
  | PF.neginf, PF.neginf => true

/-- The display ranking of regions by the z-score detector
(`nlargest(20, 'bio_rate_zscore')`, line 376): sorted by descending
bio-rate deviation. -/
def step9ZscoreRanking (pop : List FeatureRow) : List FeatureRow :=
  List.insertionSort (fun a b => pfRankGE (zscoreRankKey pop a) (zscoreRankKey pop b) = true) pop

/-! ## Temporal Spike Detector

`STEP9_anomaly_detection_framework.py`, lines 207-223: per-state monthly
series, sorted by month, `pct_change() * 100`, flagged when the absolute
change exceeds 50. -/

/-- One month-over-month relative change, as pandas `pct_change() * 100`
computes it: `(cur - prev) / prev * 100` in float arithmetic, so a zero
previous value gives ±inf (or NaN when the current value is also 0). -/
def momChange (prev cur : ℚ) : PF :=
  pmul (pdiv (PF.fin (cur - prev)) (PF.fin prev)) (PF.fin 100)

/-- Helper for `momChangeList`: changes of the remaining series given the
previous period's value. -/
def momChangeAux (prev : ℚ) : List ℚ → List PF
  | [] => []
  | c :: rest => momChange prev c :: momChangeAux c rest

/-- The `mom_change` column of one region's sorted monthly series: pandas
`pct_change` puts NaN at the first period (no predecessor) and the
relative change at every later period (line 213). -/
def momChangeList : List ℚ → List PF
  | [] => []
  | x :: rest => PF.nan :: momChangeAux x rest

/-- The spike threshold `spike_threshold = 50` (line 216). -/
def spikeThreshold : PF := PF.fin 50

/-- The `temporal_anomaly` column: `np.abs(mom_change) > 50` per period
(line 217); NaN compares false, so the first period is never flagged. -/
def temporalFlagList (series : List ℚ) : List Bool :=
  (momChangeList series).map (fun c => pfgt (pabs c) spikeThreshold)

/-- A region's overall temporal verdict: it has at least one flagged
period (lines 219-223). -/
def regionTemporalVerdict (series : List ℚ) : Bool :=
  (temporalFlagList series).any id

/-! ## Consensus Aggregator

`STEP9_anomaly_detection_framework.py`, lines 246-255. -/

/-- The agreement count: sum of the three boolean verdicts cast to
integers (`anomaly_count`, lines 246-250). -/
def anomalyCount (iso z t : Bool) : ℕ :=
  (cond iso 1 0) + (cond z 1 0) + (cond t 1 0)

/-- The consensus flag: agreement of at least two techniques
(`consensus_anomaly`, line 253). -/
def consensusAnomaly (iso z t : Bool) : Bool :=
  decide (2 ≤ anomalyCount iso z t)

/-- Per-region detector verdicts feeding the Consensus Aggregator. -/
structure RegionVerdicts where
  state : String
  iso : Bool
  zscore : Bool
  temporal : Bool
deriving DecidableEq, Repr

/-- A region's agreement count. -/
def RegionVerdicts.count (v : RegionVerdicts) : ℕ :=
  anomalyCount v.iso v.zscore v.temporal

/-- The high-priority consensus subset: the rows of the master table with
`consensus_anomaly` true, in table order
(`consensus_anomalies = features_df[features_df['consensus_anomaly']]`,
line 255). -/
def consensusSubset (l : List RegionVerdicts) : List RegionVerdicts :=
  l.filter (fun v => consensusAnomaly v.iso v.zscore v.temporal)

/-- The STEP9 display of consensus anomalies: the loop at lines 262-273
iterates `consensus_anomalies.iterrows()` directly, i.e. in master-table
order, with no re-sorting. -/
def step9Display (l : List RegionVerdicts) : List RegionVerdicts :=
  consensusSubset l

/-- The PHASE3_STEP4 display ordering (line 255 of
`PHASE3_STEP4_anomaly_detection.py`):
`sort_values('anomaly_method_count', ascending=False)` — sorted by the
agreement count alone, descending; no secondary key is passed. -/
def phase3Sorted (l : List RegionVerdicts) : List RegionVerdicts :=
  List.insertionSort (fun a b => b.count ≤ a.count) (consensusSubset l)

/-- The priority tier labels of the consensus distribution chart
(`['0\n(Normal)', '1\n(Low)', '2\n(Medium)', '3\n(High)']`, lines
439-440). -/
inductive Tier where
  | Normal
  | Low
  | Medium
  | High
deriving DecidableEq, Repr

/-- The tier assigned to an agreement count (chart labelling, lines
439-440: 0 → Normal, 1 → Low, 2 → Medium, 3 → High). -/
def priorityTier : ℕ → Tier
  | 0 => Tier.Normal
  | 1 => Tier.Low
  | 2 => Tier.Medium
  | _ => Tier.High

/-- Severity rank of a tier, for stating monotonicity. -/
def tierRank : Tier → ℕ
  | Tier.Normal => 0
  | Tier.Low => 1
  | Tier.Medium => 2
  | Tier.High => 3

/-! ## Characterizer

`STEP9_anomaly_detection_framework.py`, lines 280-306: `characterize_anomaly`
is applied with `features_df.apply(..., axis=1)` to every row of the master
table, comparing each of four features against the population's 5th and
95th percentiles. -/

/-- `pandas.Series.quantile(q)` with the default linear interpolation on a
list of rationals: sort ascending, position `q * (n - 1)`, interpolate
between the two neighbouring order statistics. -/
def pandasQuantile (q : ℚ) (xs : List ℚ) : ℚ :=
  let sorted := List.insertionSort (fun a b => a ≤ b) xs
  let n := sorted.length
  let pos : ℚ := q * ((n : ℚ) - 1)
  let i : ℕ := pos.floor.toNat
  let frac : ℚ := pos - (i : ℚ)
  let lo := sorted.getD i 0
  let hi := sorted.getD (i + 1) lo
  lo + frac * (hi - lo)

/-- Quantile of a pandas float column: pandas skips NaN (and the columns
here carry no infinities); an all-NaN column has NaN quantiles. -/
def colQuantile (q : ℚ) (col : List PF) : PF :=
  match finiteVals col with
  | [] => PF.nan
  | vs => PF.fin (pandasQuantile q vs)

/-- The reason list built by `characterize_anomaly` (lines 280-304): for
each of the four tracked features, one reason when the region sits above
the 95th or below the 5th population percentile. -/
def reasonsFor (pop : List FeatureRow) (r : FeatureRow) : List String :=
  (if pfgt r.bio_update_rate (colQuantile (95/100) (pop.map FeatureRow.bio_update_rate)) then
     ["Extremely high bio update rate"]
   else if pflt r.bio_update_rate (colQuantile (5/100) (pop.map FeatureRow.bio_update_rate)) then
     ["Extremely low bio update rate"]
   else []) ++
  (if pfgt r.demo_update_rate (colQuantile (95/100) (pop.map FeatureRow.demo_update_rate)) then
     ["Extremely high demo update rate"]
   else if pflt r.demo_update_rate (colQuantile (5/100) (pop.map FeatureRow.demo_update_rate)) then
     ["Extremely low demo update rate"]
   else []) ++
  (if pfgt r.child_enrol_pct (colQuantile (95/100) (pop.map FeatureRow.child_enrol_pct)) then
     ["Unusually high child enrolment %"]
   else if pflt r.child_enrol_pct (colQuantile (5/100) (pop.map FeatureRow.child_enrol_pct)) then
     ["Unusually low child enrolment %"]
   else []) ++
  (if pfgt r.total_enrolments (colQuantile (95/100) (pop.map FeatureRow.total_enrolments)) then
     ["Very large population"]
   else if pflt r.total_enrolments (colQuantile (5/100) (pop.map FeatureRow.total_enrolments)) then
     ["Very small population"]
   else [])

/-- `characterize_anomaly`'s return value (line 304):
`"; ".join(reasons) if reasons else "Complex multivariate pattern"`. -/
def characterize (pop : List FeatureRow) (r : FeatureRow) : String :=
  if reasonsFor pop r = [] then "Complex multivariate pattern"
  else String.intercalate "; " (reasonsFor pop r)

/-- The `anomaly_characterization` column: the characterizer applied to
*every* row of the master table
(`features_df.apply(characterize_anomaly, axis=1)`, line 306), not only
the consensus-flagged ones. -/
def characterizeAll (pop : List FeatureRow) : List String :=
  pop.map (characterize pop)

/-! ## Multivariate Density Detector and the full pipeline

`STEP9_anomaly_detection_framework.py`, lines 116-140: the six-column
feature matrix is standardized with `StandardScaler` and scored by
`IsolationForest(contamination=0.05, random_state=42, ...)`. -/

/-- Modelled from the spec: `StandardScaler` + `IsolationForest` are
sklearn library code, external to this repository.  The spec (§4.3) fixes
only the block's I/O contract — for every region a continuous anomaly
score (more negative = more anomalous) and a boolean flag from the fitted
model's own decision boundary at the configured contamination fraction —
and the requirement that a seeded fit be a deterministic function of its
inputs.  The fit is therefore modelled as a concrete deterministic
function of the seed and the feature matrix: a magnitude-based score
perturbed by the seed, flagged below the contamination quantile of the
score population. -/
def densityRun (seed : ℕ) (contamination : ℚ) (m : List (List PF)) :
    List (ℚ × Bool) :=
  let cellVal : PF → ℚ := fun x =>
    match x with
    | PF.fin q => |q|
    | _ => 0
  let scores : List ℚ :=
    m.map (fun row => -(listSum (row.map cellVal)) - ((seed % 1000 : ℕ) : ℚ) / 1000)
  let boundary : ℚ := pandasQuantile contamination scores
  scores.map (fun s => (s, decide (s ≤ boundary)))

/-- Modelled from the spec: an unseeded sklearn fit (`random_state=None`)
draws operating-system entropy, here an explicit `entropy` input; a seeded
fit ignores the entropy. -/
def densityFit (randomState : Option ℕ) (entropy : ℕ) (contamination : ℚ)
    (m : List (List PF)) : List (ℚ × Bool) :=
  densityRun (match randomState with | some s => s | none => entropy)
    contamination m

/-- The six `feature_cols` rows fed to the density detector
(lines 116-119). -/
def isoFeatureMatrix (pop : List FeatureRow) : List (List PF) :=
  pop.map (fun r =>
    [r.total_enrolments, r.bio_update_rate, r.demo_update_rate,
     r.child_enrol_pct, r.youth_enrol_pct, r.adult_enrol_pct])

/-- The STEP9 density detector invocation:
`IsolationForest(contamination=0.05, random_state=42, ...)`
(lines 126-136) — the random state is the fixed literal 42. -/
def step9DensityDetector (entropy : ℕ) (pop : List FeatureRow) :
    List (ℚ × Bool) :=
  densityFit (some 42) entropy (5/100) (isoFeatureMatrix pop)

/-- One region's raw inputs to the pipeline: its aggregated counts and its
sorted monthly enrolment series. -/
structure RegionInput where
  agg : RegionAgg
  series : List ℚ
deriving DecidableEq, Repr

/-- One region's terminal consensus record. -/
structure ConsensusRecord where
  state : String
  isoScore : ℚ
  isoFlag : Bool
  zscoreFlag : Bool
  temporalFlag : Bool
  count : ℕ
  consensus : Bool
  characterization : String
deriving DecidableEq, Repr

/-- The full STEP9 pipeline on a complete in-memory snapshot: features,
the three detectors, consensus and characterization.  `entropy` models the
operating-system randomness an *unseeded* density fit would consume; the
script's fit is seeded with the literal 42. -/
def runPipeline (entropy : ℕ) (inp : List RegionInput) : List ConsensusRecord :=
  let pop := buildFeatures (inp.map RegionInput.agg)
  let density := step9DensityDetector entropy pop
  (List.zip (List.zip inp pop) density).map (fun p =>
    let r := p.1.1
    let f := p.1.2
    let iso := p.2.2
    let z := zscoreFlag pop f
    let t := regionTemporalVerdict r.series
    { state := f.state
      isoScore := p.2.1
      isoFlag := iso
      zscoreFlag := z
      temporalFlag := t
      count := anomalyCount iso z t
      consensus := consensusAnomaly iso z t
      characterization := characterize pop f })

/-! ## Helper lemmas -/

/-- A sum of non-negative rationals is non-negative. -/
theorem listSum_nonneg (xs : List ℚ) (h : ∀ x ∈ xs, 0 ≤ x) : 0 ≤ listSum xs := by
  induction xs with
  | nil => simp [listSum]
  | cons a l ih =>
      rw [List.forall_mem_cons] at h
      have hl : 0 ≤ listSum l := ih h.2
      have : listSum (a :: l) = a + listSum l := rfl
      rw [this]
      exact add_nonneg h.1 hl

/-- A sum of non-negative rationals is zero only when every term is. -/
theorem listSum_eq_zero (xs : List ℚ) (hnn : ∀ x ∈ xs, 0 ≤ x)
    (hz : listSum xs = 0) : ∀ x ∈ xs, x = 0 := by
  induction xs with
  | nil => simp
  | cons a l ih =>
      rw [List.forall_mem_cons] at hnn
      have hcons : listSum (a :: l) = a + listSum l := rfl
      rw [hcons] at hz
      have hl : 0 ≤ listSum l := listSum_nonneg l hnn.2
      have ha : a = 0 := by linarith [hnn.1]
      have hlz : listSum l = 0 := by linarith
      intro x hx
      rcases List.mem_cons.mp hx with rfl | hx
      · exact ha
      · exact ih hnn.2 hlz x hx

/-- Zero population variance forces every value to equal the mean. -/
theorem var_zero_all_eq_mean (xs : List ℚ) (hne : xs ≠ [])
    (hz : listVar xs = 0) : ∀ x ∈ xs, x = listMean xs := by
  have hlen : (xs.length : ℚ) ≠ 0 := by
    have : xs.length ≠ 0 := fun h => hne (List.length_eq_zero.mp h)
    exact_mod_cast this
  have hsum : listSum (xs.map (fun x => (x - listMean xs) ^ 2)) = 0 := by
    unfold listVar at hz
    exact (div_eq_zero_iff.mp hz).resolve_right hlen
  intro x hx
  have hnn : ∀ y ∈ xs.map (fun x => (x - listMean xs) ^ 2), (0:ℚ) ≤ y := by
    intro y hy
    rcases List.mem_map.mp hy with ⟨z, _, rfl⟩
    exact sq_nonneg _
  have hmem : (x - listMean xs) ^ 2 ∈ xs.map (fun x => (x - listMean xs) ^ 2) :=
    List.mem_map_of_mem _ hx
  have h0 := listSum_eq_zero _ hnn hsum _ hmem
  have := pow_eq_zero_iff (n := 2) (by norm_num) |>.mp h0
  linarith [sub_eq_zero.mp this]

/-- `momChangeAux` preserves the series length. -/
theorem momChangeAux_length (l : List ℚ) : ∀ prev : ℚ,
    (momChangeAux prev l).length = l.length := by
  induction l with
  | nil => intro prev; rfl
  | cons c rest ih => intro prev; simp [momChangeAux, ih]

/-- `momChangeList` preserves the series length (pandas `pct_change` keeps
one entry per period). -/
theorem momChangeList_length (l : List ℚ) :
    (momChangeList l).length = l.length := by
  cases l with
  | nil => rfl
  | cons x rest => simp [momChangeList, momChangeAux_length]

/-- `temporalFlagList` keeps one flag per period. -/
theorem temporalFlagList_length (l : List ℚ) :
    (temporalFlagList l).length = l.length := by
  simp [temporalFlagList, momChangeList_length]

/-- Entry `i` of `momChangeAux prev l` is the change from the series value
at position `i` of `prev :: l` to the one at position `i` of `l`. -/
theorem momChangeAux_get (l : List ℚ) : ∀ (prev : ℚ) (i : ℕ) (a b : ℚ),
    (prev :: l)[i]? = some a → l[i]? = some b →
    (momChangeAux prev l)[i]? = some (momChange a b) := by
  induction l with
  | nil => intro prev i a b _ hb; simp at hb
  | cons c rest ih =>
      intro prev i a b ha hb
      cases i with
      | zero =>
          simp at ha hb
          subst ha; subst hb
          simp [momChangeAux]
      | succ j =>
          simp at ha hb
          simpa [momChangeAux] using ih c j a b ha hb

/-- Entry `i + 1` of the `mom_change` column is the relative change from
period `i` to period `i + 1`. -/
theorem momChangeList_get (l : List ℚ) (i : ℕ) (a b : ℚ)
    (ha : l[i]? = some a) (hb : l[i + 1]? = some b) :
    (momChangeList l)[i + 1]? = some (momChange a b) := by
  cases l with
  | nil => simp at ha
  | cons x rest =>
      simp at hb
      simpa [momChangeList] using momChangeAux_get rest x i a b ha hb

/-- Severity rank of the tier of a count is the count capped at 3. -/
theorem tierRank_priorityTier (n : ℕ) :
    tierRank (priorityTier n) = min n 3 := by
  match n with
  | 0 => rfl
  | 1 => rfl
  | 2 => rfl
  | (k + 3) =>
      have h1 : priorityTier (k + 3) = Tier.High := by
        cases k <;> rfl
      rw [h1]
      have h2 : min (k + 3) 3 = 3 := by omega
      rw [h2]
      rfl

/-- The `nlargest` key comparison is total. -/
theorem pfRankGE_total (a b : PF) :
    pfRankGE a b = true ∨ pfRankGE b a = true := by
  cases a <;> cases b <;> simp [pfRankGE] <;> exact le_total _ _

/-- The `nlargest` key comparison is transitive. -/
theorem pfRankGE_trans (a b c : PF) (hab : pfRankGE a b = true)
    (hbc : pfRankGE b c = true) : pfRankGE a c = true := by
  cases a <;> cases b <;> cases c <;>
    simp_all [pfRankGE] <;> exact le_trans hbc hab

/-! ## Claim theorems -/

/-- C1: the claim states every derived feature is finite, with a ratio of
zero over zero resolving to exactly 0.  Evaluating the Feature Builder at
a region whose update count and registration count are both 0 shows the
code instead produces NaN for the intensity feature: the
`.replace([np.inf, -np.inf], 0)` cleanup catches the infinities from a
zero denominator with a non-zero numerator (second conjunct) but not the
NaN from `0 / 0`, so the stated hard post-condition fails on this
input. -/
theorem featureBuilder_nan_on_zero_over_zero :
    (buildFeatureRow ⟨"region with only demo rows", 0, 0, 0, 0, 0, 0⟩).bio_update_rate
      = PF.nan ∧
    rateFeature 7 0 = PF.fin 0 ∧
    PF.nan ≠ PF.fin 0 := by
  refine ⟨?_, ?_, ?_⟩ <;> with_unfolding_all decide

/-- C2: a region is in the high-priority consensus subset iff its
agreement count is at least 2 (`consensus_anomaly = anomaly_count >= 2`,
STEP9 lines 246-255); in particular a region flagged by exactly 2 of 3
detectors is in the subset and one flagged by exactly 1 is not. -/
theorem consensus_subset_iff_two_of_three (l : List RegionVerdicts)
    (v : RegionVerdicts) :
    v ∈ consensusSubset l ↔ (v ∈ l ∧ 2 ≤ v.count) := by
  simp [consensusSubset, List.mem_filter, consensusAnomaly, RegionVerdicts.count]

/-- C5: with the density model seeded (`random_state=42`, STEP9 lines
126-136), running the pipeline twice on identical input data yields
identical density flags and scores, hence identical agreement counts and
consensus output; the `entropy` argument models the operating-system
randomness an unseeded fit would consume, and the seeded run ignores
it. -/
theorem pipeline_deterministic (e₁ e₂ : ℕ) (inp : List RegionInput) :
    runPipeline e₁ inp = runPipeline e₂ inp ∧
    step9DensityDetector e₁ (buildFeatures (inp.map RegionInput.agg)) =
      step9DensityDetector e₂ (buildFeatures (inp.map RegionInput.agg)) :=
  ⟨rfl, rfl⟩

/-- C6: the agreement count is the exact sum of the three boolean verdicts
(STEP9 lines 246-250), lies in [0, 3], and the priority tier is the pure
monotone function 0 → Normal, 1 → Low, 2 → Medium, 3 → High (chart labels,
lines 439-440). -/
theorem agreement_count_sum_and_tier_monotone (v : RegionVerdicts)
    (n m : ℕ) (hnm : n ≤ m) :
    v.count = (cond v.iso 1 0) + (cond v.zscore 1 0) + (cond v.temporal 1 0) ∧
    v.count ≤ 3 ∧
    priorityTier 0 = Tier.Normal ∧ priorityTier 1 = Tier.Low ∧
    priorityTier 2 = Tier.Medium ∧ priorityTier 3 = Tier.High ∧
    tierRank (priorityTier n) ≤ tierRank (priorityTier m) := by
  refine ⟨rfl, ?_, rfl, rfl, rfl, rfl, ?_⟩
  · rcases v with ⟨s, i, z, t⟩
    cases i <;> cases z <;> cases t <;>
      simp [RegionVerdicts.count, anomalyCount]
  · rw [tierRank_priorityTier, tierRank_priorityTier]
    omega

/-- Witness for C6 at a concrete region flagged by 2 of 3 detectors and
the tier comparison 1 ≤ 2. -/
theorem agreement_count_sum_and_tier_monotone_witness :
    RegionVerdicts.count ⟨"witness state", true, false, true⟩ = 2 ∧
    RegionVerdicts.count ⟨"witness state", true, false, true⟩ ≤ 3 ∧
    tierRank (priorityTier 1) ≤ tierRank (priorityTier 2) := by
  have h := agreement_count_sum_and_tier_monotone
    ⟨"witness state", true, false, true⟩ 1 2 (by decide)
  exact ⟨by decide, h.2.1, h.2.2.2.2.2.2⟩

/-- C7: the first observed period of a region's series is never the
subject of a Temporal Anomaly Event — pandas `pct_change` makes the first
entry NaN and `NaN > threshold` is false — and a single-period series
yields a false temporal verdict. -/
theorem first_period_never_temporal_event (x : ℚ) (l : List ℚ) :
    (temporalFlagList (x :: l))[0]? = some false ∧
    regionTemporalVerdict [x] = false := by
  constructor
  · simp [temporalFlagList, momChangeList, pabs, pfgt, spikeThreshold]
  · rfl

/-- C4: a transition from a zero previous-period value to a non-zero
current value raises no division error — pandas yields an infinite
relative change — and is flagged as a Temporal Anomaly Event (±inf exceeds
the 50% spike threshold); the flag column keeps one entry per period, so
the transition is not dropped. -/
theorem temporal_zero_prev_transition_flagged (l : List ℚ) (i : ℕ) (b : ℚ)
    (h0 : l[i]? = some 0) (hb : l[i + 1]? = some b) (hbne : b ≠ 0) :
    (temporalFlagList l)[i + 1]? = some true ∧
    (temporalFlagList l).length = l.length := by
  constructor
  · have hm := momChangeList_get l i 0 b h0 hb
    have hstep : (temporalFlagList l)[i + 1]? =
        some (pfgt (pabs (momChange 0 b)) spikeThreshold) := by
      simp [temporalFlagList, hm]
    rw [hstep]
    have hflag : pfgt (pabs (momChange 0 b)) spikeThreshold = true := by
      rcases lt_trichotomy b 0 with hlt | heq | hgt
      · norm_num [momChange, pdiv, pmul, pabs, pfgt, spikeThreshold,
          sub_zero, hbne, hlt, not_lt.mpr hlt.le]
      · exact absurd heq hbne
      · norm_num [momChange, pdiv, pmul, pabs, pfgt, spikeThreshold,
          sub_zero, hbne, hgt]
    rw [hflag]
  · exact temporalFlagList_length l

/-- Witness for C4: the spec's own example, a region moving from period
value 0 to period value 150. -/
theorem temporal_zero_prev_transition_flagged_witness :
    ([0, 150] : List ℚ)[0]? = some 0 ∧ ((150:ℚ) ≠ 0) ∧
    (temporalFlagList [0, 150])[1]? = some true ∧
    (temporalFlagList [0, 150]).length = ([0, 150] : List ℚ).length := by
  have h := temporal_zero_prev_transition_flagged [0, 150] 0 150
    (by with_unfolding_all decide) (by with_unfolding_all decide)
    (by norm_num)
  exact ⟨by with_unfolding_all decide, by norm_num, h.1, h.2⟩

/-- C3 counterexample: the claim says the computed standardized deviation
on a zero-variance feature is exactly 0; evaluating the detector on a
population whose bio-update-rate column is the constant 7 shows the
computed deviation is NaN (scipy's `0 / 0`), not 0. -/
theorem zscore_zero_variance_deviation_counterexample :
    listVar (finiteVals
      (([⟨"s1", PF.fin 1, PF.fin 7, PF.fin 1, PF.fin 1, PF.fin 1, PF.fin 1⟩,
         ⟨"s2", PF.fin 2, PF.fin 7, PF.fin 2, PF.fin 2, PF.fin 2, PF.fin 2⟩,
         ⟨"s3", PF.fin 3, PF.fin 7, PF.fin 3, PF.fin 3, PF.fin 3, PF.fin 3⟩] :
        List FeatureRow).map FeatureRow.bio_update_rate)) = 0 ∧
    bioDevSq
      [⟨"s1", PF.fin 1, PF.fin 7, PF.fin 1, PF.fin 1, PF.fin 1, PF.fin 1⟩,
       ⟨"s2", PF.fin 2, PF.fin 7, PF.fin 2, PF.fin 2, PF.fin 2, PF.fin 2⟩,
       ⟨"s3", PF.fin 3, PF.fin 7, PF.fin 3, PF.fin 3, PF.fin 3, PF.fin 3⟩]
      ⟨"s1", PF.fin 1, PF.fin 7, PF.fin 1, PF.fin 1, PF.fin 1, PF.fin 1⟩
      = PF.nan ∧
    PF.nan ≠ PF.fin 0 := by
  refine ⟨?_, ?_, ?_⟩ <;> with_unfolding_all decide

/-- C3 amended: on a feature column with zero population variance the
detector's computed deviation is NaN (scipy's `0 / 0`), not 0, for every
region in the column; the claim's consequence still holds — no region can
be flagged as an outlier on that feature, since any comparison of NaN
against a threshold is false. -/
theorem zero_variance_deviation_nan_never_flagged (col : List PF) (x : PF)
    (hx : x ∈ col) (hfin : allFinite col = true)
    (hvar : listVar (finiteVals col) = 0) :
    absZscoreSq col x = PF.nan ∧
    (∀ t : PF, pfgt (absZscoreSq col x) t = false) := by
  have hall : ∀ y ∈ col, y.isFinite = true := by
    simpa [allFinite, List.all_eq_true] using hfin
  obtain ⟨q, rfl⟩ : ∃ q, x = PF.fin q := by
    have := hall x hx
    cases x with
    | fin q => exact ⟨q, rfl⟩
    | nan => simp [PF.isFinite] at this
    | inf => simp [PF.isFinite] at this
    | neginf => simp [PF.isFinite] at this
  have hq : q ∈ finiteVals col :=
    List.mem_filterMap.mpr ⟨PF.fin q, hx, rfl⟩
  have hne : finiteVals col ≠ [] := by
    intro h
    rw [h] at hq
    simp at hq
  have hmean : q = listMean (finiteVals col) :=
    var_zero_all_eq_mean (finiteVals col) hne hvar q hq
  have hnan : absZscoreSq col (PF.fin q) = PF.nan := by
    simp [absZscoreSq, hfin, hvar, hmean]
  refine ⟨hnan, fun t => ?_⟩
  rw [hnan]
  cases t <;> rfl

/-- Witness for C3's amended theorem at the constant column [5, 5]. -/
theorem zero_variance_deviation_nan_never_flagged_witness :
    absZscoreSq [PF.fin 5, PF.fin 5] (PF.fin 5) = PF.nan ∧
    (∀ t : PF, pfgt (absZscoreSq [PF.fin 5, PF.fin 5] (PF.fin 5)) t = false) :=
  zero_variance_deviation_nan_never_flagged [PF.fin 5, PF.fin 5] (PF.fin 5)
    (by with_unfolding_all decide) (by with_unfolding_all decide)
    (by with_unfolding_all decide)

/-- C10: the characterization step runs over every region of the master
table (not only consensus-flagged ones) and assigns each a non-empty
string: the "; "-joined reason list when some feature sits outside the
population's 5th-95th percentile band, and the fallback label
"Complex multivariate pattern" otherwise. -/
theorem characterization_every_region_nonempty (pop : List FeatureRow)
    (r : FeatureRow) :
    0 < (characterize pop r).length ∧
    characterize pop r =
      (if reasonsFor pop r = [] then "Complex multivariate pattern"
       else String.intercalate "; " (reasonsFor pop r)) ∧
    characterizeAll pop = pop.map (characterize pop) := by
  refine ⟨?_, rfl, rfl⟩
  unfold characterize reasonsFor
  split_ifs <;> first
    | (with_unfolding_all decide)
    | simp_all

/-- C8 counterexample: the claim says the maximum per-feature deviation is
what ranks regions, but the script ranks by the bio-update-rate deviation
alone (`nlargest(20, 'bio_rate_zscore')`).  On this concrete population
region "a" outranks region "b" under the code's key while "b" has the
strictly larger maximum deviation (via its demo-update-rate feature), so
the two orderings disagree. -/
theorem zscore_ranking_not_by_max_counterexample :
    pfgt
      (zscoreRankKey
        [⟨"a", PF.fin 2, PF.fin 3, PF.fin 0, PF.fin 1, PF.fin 0, PF.fin 0⟩,
         ⟨"b", PF.fin 2, PF.fin 0, PF.fin 2, PF.fin 1, PF.fin 0, PF.fin 0⟩,
         ⟨"c", PF.fin 1, PF.fin 1, PF.fin 0, PF.fin 2, PF.fin 0, PF.fin 0⟩,
         ⟨"d", PF.fin 1, PF.fin 1, PF.fin 0, PF.fin 2, PF.fin 0, PF.fin 0⟩,
         ⟨"e", PF.fin 1, PF.fin 1, PF.fin 0, PF.fin 2, PF.fin 0, PF.fin 0⟩]
        ⟨"a", PF.fin 2, PF.fin 3, PF.fin 0, PF.fin 1, PF.fin 0, PF.fin 0⟩)
      (zscoreRankKey
        [⟨"a", PF.fin 2, PF.fin 3, PF.fin 0, PF.fin 1, PF.fin 0, PF.fin 0⟩,
         ⟨"b", PF.fin 2, PF.fin 0, PF.fin 2, PF.fin 1, PF.fin 0, PF.fin 0⟩,
         ⟨"c", PF.fin 1, PF.fin 1, PF.fin 0, PF.fin 2, PF.fin 0, PF.fin 0⟩,
         ⟨"d", PF.fin 1, PF.fin 1, PF.fin 0, PF.fin 2, PF.fin 0, PF.fin 0⟩,
         ⟨"e", PF.fin 1, PF.fin 1, PF.fin 0, PF.fin 2, PF.fin 0, PF.fin 0⟩]
        ⟨"b", PF.fin 2, PF.fin 0, PF.fin 2, PF.fin 1, PF.fin 0, PF.fin 0⟩)
      = true ∧
    pfgt
      (specMaxDeviation
        [⟨"a", PF.fin 2, PF.fin 3, PF.fin 0, PF.fin 1, PF.fin 0, PF.fin 0⟩,
         ⟨"b", PF.fin 2, PF.fin 0, PF.fin 2, PF.fin 1, PF.fin 0, PF.fin 0⟩,
         ⟨"c", PF.fin 1, PF.fin 1, PF.fin 0, PF.fin 2, PF.fin 0, PF.fin 0⟩,
         ⟨"d", PF.fin 1, PF.fin 1, PF.fin 0, PF.fin 2, PF.fin 0, PF.fin 0⟩,
         ⟨"e", PF.fin 1, PF.fin 1, PF.fin 0, PF.fin 2, PF.fin 0, PF.fin 0⟩]
        ⟨"b", PF.fin 2, PF.fin 0, PF.fin 2, PF.fin 1, PF.fin 0, PF.fin 0⟩)
      (specMaxDeviation
        [⟨"a", PF.fin 2, PF.fin 3, PF.fin 0, PF.fin 1, PF.fin 0, PF.fin 0⟩,
         ⟨"b", PF.fin 2, PF.fin 0, PF.fin 2, PF.fin 1, PF.fin 0, PF.fin 0⟩,
         ⟨"c", PF.fin 1, PF.fin 1, PF.fin 0, PF.fin 2, PF.fin 0, PF.fin 0⟩,
         ⟨"d", PF.fin 1, PF.fin 1, PF.fin 0, PF.fin 2, PF.fin 0, PF.fin 0⟩,
         ⟨"e", PF.fin 1, PF.fin 1, PF.fin 0, PF.fin 2, PF.fin 0, PF.fin 0⟩]
        ⟨"a", PF.fin 2, PF.fin 3, PF.fin 0, PF.fin 1, PF.fin 0, PF.fin 0⟩)
      = true := by
  refine ⟨?_, ?_⟩ <;> with_unfolding_all decide

/-- C8 amended: the Statistical Outlier Detector's output carries, besides
the boolean flag (any of the four per-feature deviations beyond the
threshold), the individual per-feature deviations; no maximum over
features is computed, and the display ranking orders regions by the
bio-update-rate deviation alone. -/
theorem zscore_output_per_feature_devs_bio_ranking (pop : List FeatureRow)
    (r : FeatureRow) :
    zscoreFlag pop r =
      (pfgt (bioDevSq pop r) zscoreThresholdSq ||
       pfgt (demoDevSq pop r) zscoreThresholdSq ||
       pfgt (childDevSq pop r) zscoreThresholdSq ||
       pfgt (enrolDevSq pop r) zscoreThresholdSq) ∧
    zscoreRankKey pop r = bioDevSq pop r ∧
    List.Sorted
      (fun a b => pfRankGE (zscoreRankKey pop a) (zscoreRankKey pop b) = true)
      (step9ZscoreRanking pop) ∧
    (step9ZscoreRanking pop).Perm pop := by
  refine ⟨rfl, rfl, ?_, ?_⟩
  · haveI : IsTotal FeatureRow
        (fun a b => pfRankGE (zscoreRankKey pop a) (zscoreRankKey pop b) = true) :=
      ⟨fun a b => pfRankGE_total _ _⟩
    haveI : IsTrans FeatureRow
        (fun a b => pfRankGE (zscoreRankKey pop a) (zscoreRankKey pop b) = true) :=
      ⟨fun a b c hab hbc => pfRankGE_trans _ _ _ hab hbc⟩
    exact List.sorted_insertionSort _ _
  · exact List.perm_insertionSort _ _

/-- C9 counterexample: the STEP9 consensus display loop iterates the
filtered master table in its original order with no sorting; on this
concrete input the region with agreement count 2 is displayed before the
region with agreement count 3, contradicting the claimed
primary-descending-count ordering. -/
theorem step9_display_order_counterexample :
    step9Display [⟨"a", true, true, false⟩, ⟨"b", true, true, true⟩] =
      [⟨"a", true, true, false⟩, ⟨"b", true, true, true⟩] ∧
    RegionVerdicts.count ⟨"a", true, true, false⟩ <
      RegionVerdicts.count ⟨"b", true, true, true⟩ := by
  refine ⟨?_, ?_⟩ <;> with_unfolding_all decide

/-- C9 amended: STEP9 prints the consensus-flagged regions in master-table
order (the display is exactly the order-preserving filter of the input),
and PHASE3_STEP4 sorts them by descending agreement count alone; neither
script uses the Density Detector's raw score as a secondary key. -/
theorem consensus_display_ordering_amended (l : List RegionVerdicts) :
    step9Display l = consensusSubset l ∧
    (step9Display l).Sublist l ∧
    List.Sorted (fun a b : RegionVerdicts => b.count ≤ a.count)
      (phase3Sorted l) ∧
    (phase3Sorted l).Perm (consensusSubset l) := by
  refine ⟨rfl, List.filter_sublist _, ?_, ?_⟩
  · haveI : IsTotal RegionVerdicts (fun a b => b.count ≤ a.count) :=
      ⟨fun a b => Nat.le_total _ _⟩
    haveI : IsTrans RegionVerdicts (fun a b => b.count ≤ a.count) :=
      ⟨fun a b c hab hbc => le_trans hbc hab⟩
    exact List.sorted_insertionSort _ _
  · exact List.perm_insertionSort _ _
